import Mathlib

/-!
Shallow embedding of `ts890_n1mm.py`: the `Ts890` radio-state class, the CAT
response handlers of `Ts890Connection`, the bounded spectrum queue, and the
field content of the XML document built by `send_to_n1mm`.  Python integers
are `Int`, nullable fields are `Option`, and Python truthiness is made
explicit.  String data (CAT lines) is modelled as `List Char`.
-/

/-- Python truthiness of an optional integer: `None` and `0` are falsy,
every other integer is truthy. -/
def pyTruthyOptInt : Option Int → Bool
  | none => false
  | some v => v != 0

/-- Python truthiness of an optional boolean: `None` and `False` are falsy. -/
def pyTruthyOptBool : Option Bool → Bool
  | none => false
  | some b => b

/-- The mutable state of the `Ts890` class (`__init__`, lines 66-82 of the
source).  Host/account/password are connection configuration with no role in
the claims and are omitted; every field that the CAT handlers read or write
is present. -/
structure RadioState where
  bs_mode : Option Int
  bs_span_hz : Option Int
  bs_expanded_span_offset_hz : Int
  bs_lower_hz : Option Int
  bs_upper_hz : Option Int
  bs_expanded : Option Bool
  receiver_vfo : Option Int
  operating_mode : Option Int
  freq_offset : Int
  cw_decoder : Bool
deriving Repr, DecidableEq

/-- The field values set by `Ts890.__init__`. -/
def initTs890 : RadioState :=
  { bs_mode := none
    bs_span_hz := none
    bs_expanded_span_offset_hz := 0
    bs_lower_hz := none
    bs_upper_hz := none
    bs_expanded := none
    receiver_vfo := none
    operating_mode := none
    freq_offset := 0
    cw_decoder := false }

/-- `Ts890.is_centre_mode`: true when the stored bandscope mode is `0`. -/
def is_centre_mode (s : RadioState) : Bool :=
  s.bs_mode == some 0

/-- The `bs_mode` setter: accepts `0 <= mode < 3` when it differs from the
stored mode (Python compares the int against the possibly-`None` field, and
`None != int` is true); entering centre mode clears both edge fields. -/
def set_bs_mode (s : RadioState) (mode : Int) : RadioState :=
  if 0 ≤ mode ∧ mode < 3 ∧ some mode ≠ s.bs_mode then
    if is_centre_mode { s with bs_mode := some mode } then
      { s with bs_mode := some mode, bs_lower_hz := none, bs_upper_hz := none }
    else { s with bs_mode := some mode }
  else s

/-- The displayed-span lookup table of the `bs_span_hz` setter. -/
def spanTable : List Int := [5000, 10000, 20000, 30000, 50000, 100000, 200000, 500000]

/-- The expanded-span lookup table of the `bs_span_hz` setter. -/
def expandedTable : List Int := [15000, 30000, 60000, 90000, 150000, 300000, 400000, 500000]

/-- The `bs_span_hz` setter: takes a span INDEX, guards `0 <= span < 8` and
`span != self._bs_span_hz` — the latter compares the index against the stored
span in Hz (`None` or a table value), exactly as the Python does.  Stores the
table span and the half-offset `(expanded - displayed) / 2`; Python computes
the offset with float `/`, but every table difference is even so integer
division is exact. -/
def set_bs_span (s : RadioState) (span : Int) : RadioState :=
  if 0 ≤ span ∧ span < 8 ∧ some span ≠ s.bs_span_hz then
    { s with
      bs_span_hz := some (spanTable.getD span.toNat 0)
      bs_expanded_span_offset_hz :=
        (expandedTable.getD span.toNat 0 - spanTable.getD span.toNat 0) / 2 }
  else s

/-- The `bs_expanded` setter: stores `expanded != 0`, unconditionally. -/
def set_bs_expanded (s : RadioState) (expanded : Int) : RadioState :=
  { s with bs_expanded := some (expanded != 0) }

/-- The `receiver_vfo` setter: accepts `0 <= vfo < 3` when changed. -/
def set_receiver_vfo (s : RadioState) (vfo : Int) : RadioState :=
  if 0 ≤ vfo ∧ vfo < 3 ∧ some vfo ≠ s.receiver_vfo then
    { s with receiver_vfo := some vfo }
  else s

/-- `Ts890.vfo_a_active`. -/
def vfo_a_active (s : RadioState) : Bool :=
  s.receiver_vfo == some 0

/-- `Ts890.vfo_b_active`. -/
def vfo_b_active (s : RadioState) : Bool :=
  s.receiver_vfo == some 1

/-- The `operating_mode` setter: accepts `0 <= mode < 16` when changed. -/
def set_operating_mode (s : RadioState) (mode : Int) : RadioState :=
  if 0 ≤ mode ∧ mode < 16 ∧ some mode ≠ s.operating_mode then
    { s with operating_mode := some mode }
  else s

/-- `Ts890.bs_expanded_lower_hz`: when the expanded flag is truthy, the
stored lower edge minus the half-offset, else the stored lower edge.  The
Python raises `TypeError` when the edge is `None`; callers only reach it
with both edges set, and `none` models that unreachable path. -/
def bs_expanded_lower_hz (s : RadioState) : Option Int :=
  if pyTruthyOptBool s.bs_expanded then
    s.bs_lower_hz.map (fun l => l - s.bs_expanded_span_offset_hz)
  else s.bs_lower_hz

/-- `Ts890.bs_expanded_upper_hz`: symmetric to `bs_expanded_lower_hz`. -/
def bs_expanded_upper_hz (s : RadioState) : Option Int :=
  if pyTruthyOptBool s.bs_expanded then
    s.bs_upper_hz.map (fun u => u + s.bs_expanded_span_offset_hz)
  else s.bs_upper_hz

/-- `Ts890.has_all_required_info`: the Python returns
`self._bs_lower_hz and self._bs_upper_hz`, whose truthiness (the only way
callers use it) is "both fields are non-`None` AND non-zero". -/
def has_all_required_info (s : RadioState) : Bool :=
  pyTruthyOptInt s.bs_lower_hz && pyTruthyOptInt s.bs_upper_hz

/-- Python slice `cs[i:j]` on a line (for `0 ≤ i ≤ j`). -/
def pySlice (cs : List Char) (i j : Nat) : List Char :=
  (cs.take j).drop i

/-- Accumulator for a run of decimal digits; any non-digit character fails
(Python `int` raises `ValueError`). -/
def decDigitsVal : List Char → Nat → Option Nat
  | [], acc => some acc
  | c :: rest, acc =>
    if c.isDigit then decDigitsVal rest (acc * 10 + (c.toNat - 48)) else none

/-- Model of Python `int(str)` on the line slices the handlers feed it: an
optional single sign followed by one or more decimal digits.  (Python also
tolerates surrounding whitespace and `_` separators; no CAT field contains
those, so they are out of scope.) -/
def pyParseInt : List Char → Option Int
  | [] => none
  | '+' :: rest =>
    if rest = [] then none else (decDigitsVal rest 0).map Int.ofNat
  | '-' :: rest =>
    if rest = [] then none else (decDigitsVal rest 0).map (fun n => -(n : Int))
  | cs => (decDigitsVal cs 0).map Int.ofNat

/-- Value of a single hexadecimal digit character, as accepted by
Python `int(c, 16)`. -/
def hexDigitVal (c : Char) : Option Nat :=
  if c.isDigit then some (c.toNat - 48)
  else if 'a' ≤ c ∧ c ≤ 'f' then some (c.toNat - 87)
  else if 'A' ≤ c ∧ c ≤ 'F' then some (c.toNat - 55)
  else none

/-- Python-level exceptions that escape a handler uncaught. -/
inductive PyErr
  | typeError
deriving Repr, DecidableEq

/-- One decoded spectrum line: the data points and the edge frequencies
snapshotted (with the static offset applied) by `SpectrumData.__init__`. -/
structure SpectrumData where
  data : List Int
  lower_hz : Int
  upper_hz : Int
deriving Repr, DecidableEq

/-- `SpectrumData.__init__`: snapshots the expanded edges plus the static
frequency offset.  `none` models the `TypeError` the Python would raise if
an edge were `None`; the only call site guards with
`has_all_required_info`. -/
def mkSpectrumData (s : RadioState) (d : List Int) : Option SpectrumData :=
  match bs_expanded_lower_hz s, bs_expanded_upper_hz s with
  | some l, some u => some ⟨d, l + s.freq_offset, u + s.freq_offset⟩
  | _, _ => none

/-- `MAX_QUEUE_DEPTH` from the source. -/
def MAX_QUEUE_DEPTH : Nat := 2

/-- The producer's admission step in `_handle_cat_dd`: if the queue is full
(`qsize >= maxsize`), remove the single oldest entry with `get_nowait`,
then `put_nowait` the new entry.  It is a total function — the producer
never blocks. -/
def pyQueuePut {α : Type} (q : List α) (x : α) : List α :=
  let q1 := if MAX_QUEUE_DEPTH ≤ q.length then q.drop 1 else q
  q1 ++ [x]

/-- `Ts890Connection._handle_cat_bs` (lines 364-399): BSM bulk edges
(length 21, sub-variant `0`, not in centre mode), BS3 mode (may send `FR;`
when the state is then centre mode), BS4 span index, BSO expanded flag.
BS3/BS4/BSO read only the single character at index 3, guarded only by the
minimum length `len(resp) > 4`.  In the BSM branch the Python assigns the
lower edge before parsing the upper edge, so a failed upper parse still
keeps a successfully parsed lower edge. -/
def handle_cat_bs (s : RadioState) (resp : List Char) : RadioState × List String :=
  if 4 < resp.length then
    let cmd := resp.take 3
    if cmd = ['B', 'S', 'M'] then
      if ¬ (is_centre_mode s) ∧ resp.length = 21 ∧ resp.getD 3 ' ' = '0' then
        match pyParseInt (pySlice resp 4 12) with
        | none => (s, [])
        | some lo =>
          let s1 := { s with bs_lower_hz := some lo }
          match pyParseInt (pySlice resp 12 20) with
          | none => (s1, [])
          | some hi => ({ s1 with bs_upper_hz := some hi }, [])
      else (s, [])
    else if cmd = ['B', 'S', '3'] then
      match pyParseInt [resp.getD 3 ' '] with
      | none => (s, [])
      | some m =>
        let s1 := set_bs_mode s m
        if is_centre_mode s1 then (s1, ["FR;"]) else (s1, [])
    else if cmd = ['B', 'S', '4'] then
      match pyParseInt [resp.getD 3 ' '] with
      | none => (s, [])
      | some i => (set_bs_span s i, [])
    else if cmd = ['B', 'S', 'O'] then
      match pyParseInt [resp.getD 3 ' '] with
      | none => (s, [])
      | some v => (set_bs_expanded s v, [])
    else (s, [])
  else (s, [])

/-- `Ts890Connection._handle_cat_fr` (lines 435-448): length must be 4; on a
parsed VFO digit, in centre mode a follow-up `FA;`/`FB;` poll is sent for
the active VFO. -/
def handle_cat_fr (s : RadioState) (resp : List Char) : RadioState × List String :=
  if resp.length = 4 then
    match pyParseInt [resp.getD 2 ' '] with
    | none => (s, [])
    | some v =>
      let s1 := set_receiver_vfo s v
      if is_centre_mode s1 then
        if vfo_a_active s1 then (s1, ["FA;"])
        else if vfo_b_active s1 then (s1, ["FB;"])
        else (s1, [])
      else (s1, [])
  else (s, [])

/-- `Ts890Connection._handle_cat_fa_fb` (lines 450-461): only acts in centre
mode on a line of length 14.  The `try` block catches only `ValueError`; the
expression `self._ts890.bs_span_hz / 2` raises an UNCAUGHT `TypeError` when
the span is still `None`.  (Spans are even, so Python's float `/ 2` followed
by `int()` equals integer division.) -/
def handle_cat_fa_fb (s : RadioState) (resp : List Char) : Except PyErr RadioState :=
  if is_centre_mode s ∧ resp.length = 14 then
    match pyParseInt (pySlice resp 2 13) with
    | none => .ok s
    | some freq =>
      match s.bs_span_hz with
      | none => .error .typeError
      | some sp =>
        .ok { s with
              bs_lower_hz := some (freq - sp / 2)
              bs_upper_hz := some (freq + sp / 2) }
  else .ok s

/-- `Ts890Connection._handle_cat_om` (lines 463-472): length must be 5, the
side digit at index 2 must be `0`, the mode is one hex digit at index 3. -/
def handle_cat_om (s : RadioState) (resp : List Char) : RadioState :=
  if resp.length = 5 then
    if resp.getD 2 ' ' = '0' then
      match hexDigitVal (resp.getD 3 ' ') with
      | none => s
      | some m => set_operating_mode s (m : Int)
    else s
  else s

/-- `140 - val if val < 140 else 0`: the rescale of one decoded bandscope
byte to the N1MM convention in `_handle_cat_dd`. -/
def ddScale (v : Nat) : Int :=
  if v < 140 then (140 : Int) - (v : Int) else 0

/-- The payload loop of `_handle_cat_dd`: consume two hex characters at a
time (`int(resp[i:i+2], 16)`) and rescale each byte.  Any bad pair aborts the
whole line with `ValueError` (the partially built list is discarded), hence
`none`. -/
def ddParsePairs : List Char → Option (List Int)
  | [] => some []
  | c1 :: c2 :: rest =>
    match hexDigitVal c1, hexDigitVal c2, ddParsePairs rest with
    | some v1, some v2, some ds => some (ddScale (v1 * 16 + v2) :: ds)
    | _, _, _ => none
  | [_] => none

/-- `Ts890Connection._handle_cat_dd` (lines 401-433), queue effect: a line
must have length 1286 with head `##DD2`; the 640 payload byte pairs are
indices 5..1284; on success and when the state is ready, a `SpectrumData`
snapshot is admitted to the queue with the drop-oldest policy. -/
def handle_cat_dd (s : RadioState) (q : List SpectrumData) (resp : List Char) :
    List SpectrumData :=
  if resp.length = 1286 ∧ resp.take 5 = ['#', '#', 'D', 'D', '2'] then
    match ddParsePairs (pySlice resp 5 1285) with
    | none => q
    | some data =>
      if has_all_required_info s then
        match mkSpectrumData s data with
        | none => q
        | some sd => pyQueuePut q sd
      else q
  else q

/-- `Ts890Connection._handle_info` (lines 482-506): dispatch on the first two
characters, or four when the line starts with the `##` escape.  Unknown tags
and lines of length ≤ 2 leave state and queue alone.  The `CD` handler only
writes decoded text to stdout, so it is a no-op here.  The result carries the
new state, the new queue, and the commands the handler sent; an uncaught
Python exception inside a handler surfaces as `.error`. -/
def handle_info (s : RadioState) (q : List SpectrumData) (msg : List Char) :
    Except PyErr (RadioState × List SpectrumData × List String) :=
  if 2 < msg.length then
    let cmd := if msg.take 2 = ['#', '#'] then msg.take 4 else msg.take 2
    if cmd = ['B', 'S'] then
      let r := handle_cat_bs s msg
      .ok (r.1, q, r.2)
    else if cmd = ['F', 'R'] then
      let r := handle_cat_fr s msg
      .ok (r.1, q, r.2)
    else if cmd = ['F', 'A'] ∨ cmd = ['F', 'B'] then
      (handle_cat_fa_fb s msg).map (fun s1 => (s1, q, []))
    else if cmd = ['#', '#', 'D', 'D'] then
      .ok (s, handle_cat_dd s q msg, [])
    else if cmd = ['O', 'M'] then
      .ok (handle_cat_om s msg, q, [])
    else .ok (s, q, [])
  else .ok (s, q, [])

/-- Model of Python `str(hz / 1000)` as used for the frequency elements in
`send_to_n1mm`.  Python `/` is float true division; when 1000 divides `hz`
(and the quotient is far below 2^53, true of every radio frequency) the
float is exact and its `str` is the integer followed by `".0"`.  The inexact
case would need the float shortest-repr algorithm and is out of the model's
scope (`none`). -/
def pyStrDiv1000 (hz : Int) : Option String :=
  if hz % 1000 = 0 then some (toString (hz / 1000) ++ ".0") else none

/-- The text content of each child element of the `Spectrum` XML document
built by `send_to_n1mm` (lines 321-328), in document order. -/
structure SpectrumXmlDoc where
  name : String
  lowScopeFrequency : Option String
  highScopeFrequency : Option String
  scalingFactor : String
  dataCount : String
  spectrumData : String
deriving Repr, DecidableEq

/-- The document-building step of `send_to_n1mm` for one dequeued sample:
`Name` is the constant `TS-890`, the scope frequencies are
`str(edge_hz / 1000)`, `ScalingFactor` the constant `0.5`, `DataCount` the
decimal point count, `SpectrumData` the comma-join of the decimal data. -/
def buildSpectrumXmlDoc (sd : SpectrumData) : SpectrumXmlDoc :=
  { name := "TS-890"
    lowScopeFrequency := pyStrDiv1000 sd.lower_hz
    highScopeFrequency := pyStrDiv1000 sd.upper_hz
    scalingFactor := "0.5"
    dataCount := toString sd.data.length
    spectrumData := String.intercalate "," (sd.data.map toString) }

/-- The post-handling check of `_do_cat_rx` (lines 535-543): given the
`bandscope_on` flag and the readiness of the state after the line was
handled, the commands sent and the new flag.  `DD02;` is sent only when
ready and not already on; `DD00;` only when not ready and on. -/
def catRxStep (bandscope_on : Bool) (ready : Bool) : List String × Bool :=
  if ready then
    if bandscope_on then ([], bandscope_on)
    else (["DD02;"], true)
  else
    if bandscope_on then (["DD00;"], false)
    else ([], bandscope_on)

/-- Iterate `catRxStep` over the sequence of readiness values observed after
each handled line, collecting the commands sent at each step.  The loop in
`_do_cat_rx` starts with `bandscope_on = False`. -/
def catRxRun (bandscope_on : Bool) : List Bool → List (List String)
  | [] => []
  | r :: rs =>
    let p := catRxStep bandscope_on r
    p.1 :: catRxRun p.2 rs

/-- The spec's description of the edge-triggered behaviour: comparing the
readiness before and after a step, a false→true transition sends exactly one
enable command, a true→false transition exactly one disable command, and no
command is sent while readiness is unchanged. -/
def edgeCommands (prev r : Bool) : List String :=
  if r ∧ ¬ prev then ["DD02;"]
  else if ¬ r ∧ prev then ["DD00;"]
  else []

/-- A state whose both edge fields are non-null but whose lower edge is the
(falsy) integer 0. -/
def c2State : RadioState :=
  { initTs890 with bs_lower_hz := some 0, bs_upper_hz := some 14000000 }

/-- A session state in bandscope centre mode whose span has not yet been
learned (`bs_span_hz` is still `None`). -/
def c3CentreState : RadioState := { initTs890 with bs_mode := some 0 }

/-- The lowercase hexadecimal character of a value below 16, used to encode
one payload byte the way the radio transmits it. -/
def hexDigitChar (n : Nat) : Char :=
  if n < 10 then Char.ofNat (48 + n) else Char.ofNat (87 + n)

/-- A fixed-mode state with both edges populated, for the C6 witness. -/
def c6State : RadioState :=
  { initTs890 with bs_mode := some 1, bs_lower_hz := some 5, bs_upper_hz := some 9 }

/-- An expanded-mode state with edges 100/200 and half-offset 30, for the C5
witness. -/
def c5State : RadioState :=
  { initTs890 with
    bs_lower_hz := some 100
    bs_upper_hz := some 200
    bs_expanded := some true
    bs_expanded_span_offset_hz := 30 }

/-- The session state of the end-to-end C1 scenario: Fixed bandscope mode,
edges 1000000 / 1002000 Hz, zero frequency offset, expanded flag never
reported (falsy). -/
def c1State : RadioState :=
  { initTs890 with
    bs_mode := some 1
    bs_lower_hz := some 1000000
    bs_upper_hz := some 1002000 }

/-- The C1 spectrum line: `##DD2`, 640 payload bytes `00`, terminator `;` —
total length 1286 as the radio sends it. -/
def c1Line : List Char :=
  ['#', '#', 'D', 'D', '2'] ++ (List.replicate 1280 '0' ++ [';'])

/-- One `_do_cat_rx` check equals the spec's transition rule, and the flag
afterwards always equals the readiness just observed. -/
theorem catRxStep_eq (f r : Bool) : catRxStep f r = (edgeCommands f r, r) := by
  cases f <;> cases r <;> rfl

theorem catRxRun_eq (f : Bool) (rs : List Bool) :
    catRxRun f rs = List.zipWith edgeCommands (f :: rs) rs := by
  induction rs generalizing f with
  | nil => rfl
  | cons r rs ih =>
    simp only [catRxRun, catRxStep_eq, List.zipWith_cons_cons, ih]

/-- Claim C2 (counterexample): a `RadioState` whose edge fields are both
non-null on which `has_all_required_info` is nevertheless false, because
Python truthiness also rejects a stored edge of 0 Hz. -/
theorem c2_counterexample :
    c2State.bs_lower_hz ≠ none ∧ c2State.bs_upper_hz ≠ none ∧
      has_all_required_info c2State = false := by
  decide

/-- Claim C2 (amended): `has_all_required_info` is true iff both edge fields
hold a non-null AND non-zero frequency — Python `x and y` truthiness, not a
pure null check. -/
theorem c2_amended (s : RadioState) :
    has_all_required_info s = true ↔
      ((∃ l, s.bs_lower_hz = some l ∧ l ≠ 0) ∧
       (∃ u, s.bs_upper_hz = some u ∧ u ≠ 0)) := by
  rcases s with ⟨m, sp, off, lo, hi, ex, vfo, om, fo, cw⟩
  cases lo <;> cases hi <;>
    simp [has_all_required_info, pyTruthyOptInt]

/-- Claim C3 (code bug): dispatching the well-formed carrier-frequency line
`FA00014074000;` in centre mode before the span is known raises an uncaught
`TypeError` (`None / 2`) out of `_handle_cat_fa_fb` — the `except ValueError`
does not catch it, so the claim's "never raises" is violated by the code. -/
theorem c3_code_bug_eval :
    handle_info c3CentreState [] ("FA00014074000;".toList) =
      .error .typeError := by
  rfl

/-- Claim C7: the drop-oldest admission step on the capacity-2 queue —
admitting A, B, C from empty leaves exactly [B, C] (the oldest item A is
dropped, never the newest), and the newest item is always present after
admission; `pyQueuePut` is total, so the producer never blocks. -/
theorem c7_queue_policy :
    (∀ A B C : Nat,
      pyQueuePut (pyQueuePut (pyQueuePut ([] : List Nat) A) B) C = [B, C]) ∧
    (∀ (q : List Nat) (x : Nat), x ∈ pyQueuePut q x) := by
  constructor
  · intro A B C; rfl
  · intro q x; simp [pyQueuePut]

/-- Claim C8: the enable/disable logic of `_do_cat_rx` is edge-triggered —
over any sequence of per-line readiness observations, starting with
streaming off, the commands sent at each step are exactly those of the
spec's transition rule: one `DD02;` per false→true readiness transition, one
`DD00;` per true→false transition, nothing while readiness is unchanged. -/
theorem c8_edge_triggered (rs : List Bool) :
    catRxRun false rs = List.zipWith edgeCommands (false :: rs) rs :=
  catRxRun_eq false rs

/-- Decoding the hexadecimal character of a digit value below 16 recovers
that value. -/
theorem hexRound (d : Nat) (h : d < 16) :
    hexDigitVal (hexDigitChar d) = some d := by
  revert d
  decide

/-- Claim C4: decoding the two-hex-character encoding of any payload byte
value `v < 256` yields `140 - v` when `v < 140` and `0` otherwise; the
claim's four sample bytes are instances (`0 ↦ 140`, `139 ↦ 1`, `140 ↦ 0`,
`255 ↦ 0`). -/
theorem c4_decode (v : Nat) (h : v < 256) :
    ddParsePairs [hexDigitChar (v / 16), hexDigitChar (v % 16)] =
      some [if v < 140 then (140 : Int) - (v : Int) else 0] := by
  have h1 : hexDigitVal (hexDigitChar (v / 16)) = some (v / 16) :=
    hexRound _ (by omega)
  have h2 : hexDigitVal (hexDigitChar (v % 16)) = some (v % 16) :=
    hexRound _ (by omega)
  have h3 : v / 16 * 16 + v % 16 = v := by omega
  simp [ddParsePairs, h1, h2, h3, ddScale]

/-- Witness for C4: the byte 0 (hex `00`) decodes to 140, and the byte 255
(hex `ff`) decodes to 0. -/
theorem c4_decode_witness :
    ddParsePairs ['0', '0'] = some [(140 : Int)] ∧
      ddParsePairs ['f', 'f'] = some [(0 : Int)] := by
  refine ⟨?_, ?_⟩
  · have h := c4_decode 0 (by decide)
    simpa using h
  · have h := c4_decode 255 (by decide)
    simpa using h

/-- Claim C6: setting the bandscope mode to Centre (0) from a different mode
clears both edge fields; setting it to Fixed (1) or AutoScroll (2) never
touches them. -/
theorem c6_mode_effect (s : RadioState) (m : Int) (h0 : 0 ≤ m) (h3 : m < 3) :
    (m = 0 → s.bs_mode ≠ some 0 →
      (set_bs_mode s m).bs_lower_hz = none ∧
      (set_bs_mode s m).bs_upper_hz = none)
    ∧ ((m = 1 ∨ m = 2) →
      (set_bs_mode s m).bs_lower_hz = s.bs_lower_hz ∧
      (set_bs_mode s m).bs_upper_hz = s.bs_upper_hz) := by
  constructor
  · rintro rfl hne
    have hcond : (0 : Int) ≤ 0 ∧ (0 : Int) < 3 ∧ some (0 : Int) ≠ s.bs_mode :=
      ⟨le_refl 0, by norm_num, fun h => hne h.symm⟩
    rw [set_bs_mode, if_pos hcond]
    simp [is_centre_mode]
  · rintro (rfl | rfl) <;>
    · rw [set_bs_mode]
      split_ifs with h1 h2
      · exact absurd h2 (by simp [is_centre_mode])
      · exact ⟨rfl, rfl⟩
      · exact ⟨rfl, rfl⟩

/-- Witness for C6: from Fixed mode with both edges set, switching to Centre
clears both edges, and switching to AutoScroll keeps them. -/
theorem c6_witness :
    ((set_bs_mode c6State 0).bs_lower_hz = none
      ∧ (set_bs_mode c6State 0).bs_upper_hz = none)
    ∧ (set_bs_mode c6State 2).bs_lower_hz = some 5 := by
  refine ⟨(c6_mode_effect c6State 0 (by norm_num) (by norm_num)).1 rfl (by decide), ?_⟩
  have h := (c6_mode_effect c6State 2 (by norm_num) (by norm_num)).2 (Or.inr rfl)
  exact h.1.trans rfl

/-- Claim C5: for a valid span index and a state whose stored span (if any)
is a table value — the invariant every reachable state satisfies — the
setter stores `spanTable[i]` and the half-offset
`(expandedTable[i] - spanTable[i]) / 2`; and on any state with both edges
set, the expanded-edge accessors shift outward by the stored half-offset
exactly when the expanded flag is true and return the stored edges when it
is false. -/
theorem c5_span_offset (s : RadioState) (i : Int) (h0 : 0 ≤ i) (h8 : i < 8)
    (hspan : ∀ v : Int, s.bs_span_hz = some v → v ∈ spanTable) :
    ((set_bs_span s i).bs_span_hz = some (spanTable.getD i.toNat 0) ∧
     (set_bs_span s i).bs_expanded_span_offset_hz =
       (expandedTable.getD i.toNat 0 - spanTable.getD i.toNat 0) / 2)
    ∧ ∀ (t : RadioState) (l u : Int),
        t.bs_lower_hz = some l → t.bs_upper_hz = some u →
        ((t.bs_expanded = some true →
          bs_expanded_lower_hz t = some (l - t.bs_expanded_span_offset_hz) ∧
          bs_expanded_upper_hz t = some (u + t.bs_expanded_span_offset_hz)) ∧
         (t.bs_expanded = some false →
          bs_expanded_lower_hz t = some l ∧ bs_expanded_upper_hz t = some u)) := by
  constructor
  · have hne : some i ≠ s.bs_span_hz := by
      intro h
      have hmem := hspan i h.symm
      have hbig : ∀ v ∈ spanTable, (8 : Int) ≤ v := by decide
      exact absurd (hbig i hmem) (by omega)
    rw [set_bs_span, if_pos ⟨h0, h8, hne⟩]
    exact ⟨rfl, rfl⟩
  · intro t l u hl hu
    constructor
    · intro hex
      simp [bs_expanded_lower_hz, bs_expanded_upper_hz, pyTruthyOptBool, hex, hl, hu]
    · intro hex
      simp [bs_expanded_lower_hz, bs_expanded_upper_hz, pyTruthyOptBool, hex, hl, hu]

/-- Witness for C5: setting span index 0 on the initial state stores 5000 Hz
and half-offset (15000 - 5000) / 2 = 5000 Hz; on a state with edges 100 and
200, offset 30 and the expanded flag true, the accessors give 70 and 230. -/
theorem c5_witness :
    ((set_bs_span initTs890 0).bs_span_hz = some 5000 ∧
     (set_bs_span initTs890 0).bs_expanded_span_offset_hz = 5000) ∧
    (bs_expanded_lower_hz c5State = some 70 ∧
     bs_expanded_upper_hz c5State = some 230) := by
  have h := c5_span_offset initTs890 0 (by norm_num) (by norm_num)
    (by intro v hv; simp [initTs890] at hv)
  refine ⟨⟨?_, ?_⟩, ?_⟩
  · simpa using h.1.1
  · simpa using h.1.2
  · have h2 := (h.2 c5State 100 200 rfl rfl).1 rfl
    simpa [c5State] using h2

/-- Claim C10: the span setter is idempotent for every state and every valid
index — if the first application's guard passes, the stored Hz value
(≥ 5000) can never equal the index (< 8), so the second application rewrites
the same two fields with the same values; if the guard fails, both
applications are no-ops. -/
theorem c10_span_idempotent (s : RadioState) (i : Int) (h0 : 0 ≤ i) (h8 : i < 8) :
    set_bs_span (set_bs_span s i) i = set_bs_span s i := by
  by_cases hg : some i ≠ s.bs_span_hz
  · have h1 : set_bs_span s i =
        { s with
          bs_span_hz := some (spanTable.getD i.toNat 0)
          bs_expanded_span_offset_hz :=
            (expandedTable.getD i.toNat 0 - spanTable.getD i.toNat 0) / 2 } := by
      rw [set_bs_span, if_pos ⟨h0, h8, hg⟩]
    have hbig : ∀ j : Nat, j < 8 → (8 : Int) ≤ spanTable.getD j 0 := by decide
    have hlt : i.toNat < 8 := by omega
    have hg2 : some i ≠ (set_bs_span s i).bs_span_hz := by
      rw [h1]
      intro h
      have h' : i = spanTable.getD i.toNat 0 := by
        simpa using h
      have := hbig i.toNat hlt
      omega
    conv_lhs => rw [set_bs_span, if_pos ⟨h0, h8, hg2⟩]
    rw [h1]
  · have hnc : ¬ (0 ≤ i ∧ i < 8 ∧ some i ≠ s.bs_span_hz) := by
      rintro ⟨-, -, h⟩; exact hg h
    have h1 : set_bs_span s i = s := by rw [set_bs_span, if_neg hnc]
    rw [h1]
    exact h1

/-- Witness for C10: applying span index 3 twice to the initial state equals
applying it once. -/
theorem c10_witness :
    set_bs_span (set_bs_span initTs890 3) 3 = set_bs_span initTs890 3 :=
  c10_span_idempotent initTs890 3 (by norm_num) (by norm_num)

/-- Claim C9 (counterexample): the over-long mode report `BS312;` (a BS3
report's fixed length is 5, this line has 6 characters) is NOT dropped —
the handler checks only the minimum length `len(resp) > 4` and reads the
single character at index 3, so dispatching it from the initial state sets
the bandscope mode field. -/
theorem c9_counterexample :
    ("BS312;".toList).length = 6 ∧
    handle_info initTs890 [] ("BS312;".toList) =
      .ok ({ initTs890 with bs_mode := some 1 }, [], []) ∧
    ({ initTs890 with bs_mode := some 1 } : RadioState) ≠ initTs890 := by
  refine ⟨rfl, rfl, ?_⟩
  decide

/-- Claim C9 (amended): the handlers that do pin an exact length drop a
wrong-length line without touching the state — BSM lines of length ≠ 21,
any BS-family line of length ≤ 4, FR lines of length ≠ 4 and OM lines of
length ≠ 5; but BS3/BS4/BSO reports are guarded only by the minimum length
`len > 4`, so an over-long report still parses its first parameter
character and can mutate the state. -/
theorem c9_amended (s : RadioState) (resp : List Char) :
    (resp.take 3 = ['B', 'S', 'M'] → resp.length ≠ 21 →
      (handle_cat_bs s resp).1 = s)
    ∧ (resp.length ≤ 4 → (handle_cat_bs s resp).1 = s)
    ∧ (resp.length ≠ 4 → (handle_cat_fr s resp).1 = s)
    ∧ (resp.length ≠ 5 → handle_cat_om s resp = s) := by
  refine ⟨?_, ?_, ?_, ?_⟩
  · intro hbsm hlen
    by_cases h4 : 4 < resp.length
    · simp [handle_cat_bs, h4, hbsm, hlen]
    · simp [handle_cat_bs, h4]
  · intro hle
    have h4 : ¬ 4 < resp.length := by omega
    simp [handle_cat_bs, h4]
  · intro hlen
    simp [handle_cat_fr, hlen]
  · intro hlen
    simp [handle_cat_om, hlen]

/-- Witness for C9 (amended): a short BSM line, a long FR line and a long OM
line each leave the initial state unchanged. -/
theorem c9_witness :
    (handle_cat_bs initTs890 ("BSM000;".toList)).1 = initTs890 ∧
    (handle_cat_fr initTs890 ("FR000;".toList)).1 = initTs890 ∧
    handle_cat_om initTs890 ("OM012;".toList) = initTs890 := by
  refine ⟨?_, ?_, ?_⟩
  · exact (c9_amended initTs890 ("BSM000;".toList)).1 (by decide) (by decide)
  · exact (c9_amended initTs890 ("FR000;".toList)).2.2.1 (by decide)
  · exact (c9_amended initTs890 ("OM012;".toList)).2.2.2 (by decide)

/-- A payload of 2n zero characters decodes to n points of value 140. -/
theorem ddParsePairs_zeros (n : Nat) :
    ddParsePairs (List.replicate (2 * n) '0') =
      some (List.replicate n (140 : Int)) := by
  induction n with
  | zero => rfl
  | succ k ih =>
    have h2 : 2 * (k + 1) = 2 * k + 1 + 1 := by ring
    rw [h2, List.replicate_succ, List.replicate_succ]
    simp only [ddParsePairs, ih]
    rfl

set_option maxRecDepth 8000 in
/-- The C1 line passes every guard of `_handle_cat_dd` and deposits one
640-point sample with the snapshotted edges in the queue. -/
theorem c1_queue :
    handle_cat_dd c1State [] c1Line =
      [⟨List.replicate 640 (140 : Int), 1000000, 1002000⟩] := by
  have hlen : c1Line.length = 1286 := by
    unfold c1Line
    rw [List.length_append, List.length_append, List.length_replicate]
    rfl
  have htake : c1Line.take 5 = ['#', '#', 'D', 'D', '2'] := rfl
  have hslice : pySlice c1Line 5 1285 = List.replicate 1280 '0' := by
    unfold pySlice c1Line
    rw [List.take_append_eq_append_take,
        List.take_of_length_le (by decide),
        show 1285 - (['#', '#', 'D', 'D', '2'] : List Char).length = 1280 by decide,
        List.take_left' (List.length_replicate 1280 '0'),
        List.drop_left' (show (['#', '#', 'D', 'D', '2'] : List Char).length = 5 by decide)]
  simp only [handle_cat_dd, hslice]
  rw [if_pos ⟨hlen, htake⟩]
  rw [show List.replicate 1280 '0' = List.replicate (2 * 640) '0' by norm_num]
  rw [ddParsePairs_zeros 640]
  rfl

/-- Claim C1 (counterexample): in the claim's scenario the text published in
`LowScopeFrequency` is `1000.0` — Python `str(1000000 / 1000)` formats the
float quotient — not the claimed `1000`. -/
theorem c1_counterexample :
    ((handle_cat_dd c1State [] c1Line).map buildSpectrumXmlDoc).map
        (fun d => d.lowScopeFrequency) = [some "1000.0"] ∧
    (some "1000.0" : Option String) ≠ some "1000" := by
  constructor
  · rw [c1_queue]
    rfl
  · decide

set_option maxRecDepth 8000 in
/-- Claim C1 (amended): the document built for the scenario's sample has
`Name` `TS-890`, `LowScopeFrequency` text `1000.0`, `HighScopeFrequency`
text `1002.0` (the kHz quotients in Python float formatting), `ScalingFactor`
`0.5`, `DataCount` `640` and `SpectrumData` the comma-join of 640 `140`
values. -/
theorem c1_amended :
    (handle_cat_dd c1State [] c1Line).map buildSpectrumXmlDoc =
      [{ name := "TS-890"
         lowScopeFrequency := some "1000.0"
         highScopeFrequency := some "1002.0"
         scalingFactor := "0.5"
         dataCount := "640"
         spectrumData := String.intercalate "," (List.replicate 640 "140") }] := by
  have hdata : (List.replicate 640 (140 : Int)).map toString =
      List.replicate 640 "140" := by
    rw [List.map_replicate]
    rfl
  rw [c1_queue]
  simp only [List.map_cons, List.map_nil, buildSpectrumXmlDoc,
    List.length_replicate, hdata]
  rfl

